import Mathlib

/-!
Verification of the ITGlue password-folder audit pipeline
(`ITGlue_api/ITGlueFolders.py` and `ITGlue_api/folder_resolver.py`).

The Python code is shallowly embedded: each Python function becomes a pure
Lean function.  External effects are made explicit parameters:

* the HTTP server is a function `Nat → Response` giving the response to the
  n-th GET request issued by one `safe_get` call;
* the browser/DOM surface used by the folder resolver is a function
  `String → String → Option (List String)` mapping `(org_id, folder_id)` to
  the breadcrumb texts (already `.strip()`-ed), with `none` standing for any
  exception raised during navigation / `WebDriverWait` (timeout, missing
  element);
* Python dicts (`org_cache`, `self.cache`) are association lists with a
  first-match lookup, and dict assignment is modelled by consing a fresh
  binding (which shadows older ones for lookup);
* `time.sleep` is recorded in an explicit list of slept durations;
* raised exceptions become `Except` errors.
-/

/-- Python dict lookup: first binding whose key equals `k`. -/
def lookupKey {V : Type} (k : String) : List (String × V) → Option V
  | [] => none
  | (a, v) :: rest => if a = k then some v else lookupKey k rest

@[simp] theorem lookupKey_nil {V : Type} (k : String) :
    lookupKey k ([] : List (String × V)) = none := rfl

@[simp] theorem lookupKey_cons {V : Type} (k a : String) (v : V)
    (rest : List (String × V)) :
    lookupKey k ((a, v) :: rest)
      = if a = k then some v else lookupKey k rest := rfl

/-- An HTTP response as `safe_get` inspects it: the status code and the
optional `Retry-After` header (already converted to an integer number of
seconds, as `int(response.headers.get("Retry-After", "60"))` does). -/
structure Response where
  status : Nat
  retryAfter : Option Nat
  deriving DecidableEq, Repr

/-- `requests.Response.ok`: true when the status code is below 400. -/
def Response.ok (r : Response) : Bool := r.status < 400

deriving instance DecidableEq for Except

/-- Everything one `safe_get` call produces: the returned response or the
raised exception, the number of times the global `rate_limit_hits` counter
was incremented during the call, and the durations slept (in order). -/
structure FetchOutcome where
  result : Except String Response
  hits : Nat
  sleeps : List Nat
  deriving DecidableEq, Repr

/-- The retry loop of `safe_get` (`ITGlueFolders.py` lines 33-51).
`i` is the index of the next GET request, `n` the number of loop iterations
still available (`range(retry_limit)` positions not yet used).  Each
iteration issues one GET; a 429 increments the rate-limit counter, sleeps
`Retry-After` (default 60) seconds and `continue`s — which, being inside
`for attempt in range(retry_limit)`, moves on to the NEXT value of
`attempt`; an `ok` response is returned; any other response sleeps 2
seconds and retries. -/
def safeGetLoop (server : Nat → Response) : Nat → Nat → FetchOutcome
  | _, 0 => { result := Except.error "Failed after retry_limit attempts",
              hits := 0, sleeps := [] }
  | i, n + 1 =>
    let r := server i
    if r.status = 429 then
      let rest := safeGetLoop server (i + 1) n
      { result := rest.result, hits := rest.hits + 1,
        sleeps := r.retryAfter.getD 60 :: rest.sleeps }
    else if r.ok then
      { result := Except.ok r, hits := 0, sleeps := [] }
    else
      let rest := safeGetLoop server (i + 1) n
      { result := rest.result, hits := rest.hits, sleeps := 2 :: rest.sleeps }

/-- `safe_get(url, headers, retry_limit)`: run the retry loop from the first
request with the whole budget.  The `url` and `headers` arguments only
select which server is being talked to, so they are absorbed into
`server`. -/
def safe_get (server : Nat → Response) (retry_limit : Nat) : FetchOutcome :=
  safeGetLoop server 0 retry_limit

/-- The record `resolve` returns: `{"FolderName": ..., "ParentFolderName": ...}`
(`folder_resolver.py`).  Either field can be Python `None`. -/
structure Resolution where
  FolderName : Option String
  ParentFolderName : Option String
  deriving DecidableEq, Repr

/-- The record returned by `resolve` when navigation fails:
`{"FolderName": None, "ParentFolderName": None}`. -/
def nullResolution : Resolution :=
  { FolderName := none, ParentFolderName := none }

/-- The resolver's in-memory cache `self.cache`: a dict keyed by folder id. -/
abbrev FolderCache := List (String × Resolution)

/-- Python `str.lower()` on the strings at hand (breadcrumb texts):
lower-case each character. -/
def lowerAscii (s : String) : String := String.mk (s.data.map Char.toLower)

/-- `FolderResolver.resolve(org_id, folder_id)` (`folder_resolver.py`
lines 74-108), with the browser made an explicit parameter.
`browser org_id folder_id = some bs` means navigation and the breadcrumb
wait succeed and `find_elements` returns elements whose stripped texts are
`bs`; `none` means some step inside the `try` block raised (timeout,
missing element), which the `except` clause turns into the null record.
Returns the resolution, the updated cache, and whether the browser was
driven at all (`False` on a cache hit). -/
def FolderResolver.resolve (browser : String → String → Option (List String))
    (cache : FolderCache) (org_id folder_id : String) :
    Resolution × FolderCache × Bool :=
  match lookupKey folder_id cache with
  | some r => (r, cache, false)
  | none =>
    match browser org_id folder_id with
    | none => (nullResolution, cache, true)
    | some breadcrumbs =>
      let folder_name : Option String := breadcrumbs.getLast?
      let parent0 : String :=
        if h : 2 ≤ breadcrumbs.length then
          breadcrumbs.get ⟨breadcrumbs.length - 2, by omega⟩
        else "root"
      let parent_name : String :=
        if lowerAscii parent0 = "passwords" then "root" else parent0
      let r : Resolution :=
        { FolderName := folder_name, ParentFolderName := some parent_name }
      (r, (folder_id, r) :: cache, true)

/-- One password's detail document as `process_org_passwords` reads it:
`relFolderId` is `rels.get("password-folder", {}).get("data", {}).get("id")`
and `attrFolderId` is `attrs.get("password-folder-id")`; both are `None`
when the corresponding shape is absent, and either may be an empty string
(falsy in Python). -/
structure PasswordDetail where
  pwId : String
  name : Option String
  username : Option String
  relFolderId : Option String
  attrFolderId : Option String
  deriving DecidableEq, Repr

/-- Python truthiness of an optional string: `None` and `""` are falsy. -/
def truthy : Option String → Bool
  | none => false
  | some s => s ≠ ""

/-- Python `a or b` on two optional strings: `b` when `a` is falsy. -/
def pyOr (a b : Option String) : Option String :=
  if truthy a then a else b

/-- Line 117 of `ITGlueFolders.py`: the folder id used by the auditor,
`rels.get(...).get("id") or attrs.get("password-folder-id")`. -/
def folderIdOf (pw : PasswordDetail) : Option String :=
  pyOr pw.relFolderId pw.attrFolderId

/-- One exported row (`ITGlueFolders.py` lines 129-139). -/
structure AuditRecord where
  OrgID : String
  OrgName : String
  PasswordID : String
  PasswordName : Option String
  Username : Option String
  FolderID : String
  FolderName : String
  ParentFolderName : Option String
  FolderURL : String
  deriving DecidableEq, Repr

/-- The body of the `for pw in pw_ids` loop of `process_org_passwords`
(`ITGlueFolders.py` lines 107-139) for a single password: returns the
appended record, if any, and the resolver cache after the iteration.
`if not folder_id: continue` skips both a missing id and an empty-string
id (the two falsy cases); `if folder_name:` appends a record only when the
resolved name is a non-empty string.  `ui_base` stands for the `UI_BASE`
environment variable. -/
def processOnePassword (browser : String → String → Option (List String))
    (ui_base org_id org_name : String) (cache : FolderCache)
    (pw : PasswordDetail) : Option AuditRecord × FolderCache :=
  match folderIdOf pw with
  | none => (none, cache)
  | some fid =>
    if fid = "" then (none, cache)
    else
      let res := FolderResolver.resolve browser cache org_id fid
      let folder_name := res.1.FolderName
      let parent_name := res.1.ParentFolderName
      if truthy folder_name then
        (some { OrgID := org_id, OrgName := org_name, PasswordID := pw.pwId,
                PasswordName := pw.name, Username := pw.username,
                FolderID := fid,
                FolderName := folder_name.getD "",
                ParentFolderName := parent_name,
                FolderURL := ui_base ++ "/" ++ org_id ++ "/passwords/folder/" ++ fid },
         res.2.1)
      else (none, res.2.1)

/-- `process_org_passwords(org_id, org_name, resolver)`: fold the loop body
over the password details (the documents fetched one by one inside the
loop), threading the resolver cache; returns the `password_data` list and
the final cache. -/
def process_org_passwords (browser : String → String → Option (List String))
    (ui_base org_id org_name : String) :
    List PasswordDetail → FolderCache → List AuditRecord × FolderCache
  | [], cache => ([], cache)
  | pw :: rest, cache =>
    let step := processOnePassword browser ui_base org_id org_name cache pw
    let tail := process_org_passwords browser ui_base org_id org_name rest step.2
    (step.1.toList ++ tail.1, tail.2)

/-- One value of the organization cache: `{"OrgName": ..., "Processed": ...}`
(`ITGlueFolders.py` lines 84-87). -/
structure OrgInfo where
  OrgName : String
  Processed : Bool
  deriving DecidableEq, Repr

/-- The organization cache `org_cache`: a dict keyed by organization id. -/
abbrev OrgCache := List (String × OrgInfo)

/-- The merge step inside `get_all_organizations` (`ITGlueFolders.py`
lines 80-87) for one discovered organization `(id, name)`:
`if org_id not in org_cache: org_cache[org_id] = {"OrgName": ..., "Processed": False}`.
Python dict insertion of a fresh key appends it in iteration order. -/
def addOrg (cache : OrgCache) (org : String × String) : OrgCache :=
  if (lookupKey org.1 cache).isSome then cache
  else cache ++ [(org.1, { OrgName := org.2, Processed := false })]

/-- `get_all_organizations()` (`ITGlueFolders.py` lines 67-96): load the
persisted cache (here the `cache` argument), page through the listing and
merge every discovered organization in.  `orgs` is the concatenation of the
`data` arrays of all pages, as `(id, name)` pairs, in the order the pages
are fetched; the final `save_org_cache` writes the returned value. -/
def get_all_organizations (cache : OrgCache) (orgs : List (String × String)) :
    OrgCache :=
  orgs.foldl addOrg cache

/-- The `for idx, (org_id, org_info) in enumerate(org_cache.items())` loop
of `main` (`ITGlueFolders.py` lines 187-207).  `audit org_id` stands for
`process_org_passwords(org_id, ..., resolver)` together with the network
calls it makes: `Except.error` is an exception escaping into the
`except` clause.  On success: the final cache (every audited organization
marked `Processed`), the ids audited this run (in order; its length is
`orgs_processed`), and the accumulated `password_data`.  On the fatal path:
the cache as saved by `save_org_cache` just before `exit(1)` — the failing
organization is NOT marked processed. -/
def auditLoop (audit : String → Except String (List AuditRecord)) :
    OrgCache → Except OrgCache (OrgCache × List String × List AuditRecord)
  | [] => Except.ok ([], [], [])
  | (id, info) :: rest =>
    if info.Processed then
      match auditLoop audit rest with
      | Except.error c => Except.error ((id, info) :: c)
      | Except.ok (c, ids, d) => Except.ok ((id, info) :: c, ids, d)
    else
      match audit id with
      | Except.error _ => Except.error ((id, info) :: rest)
      | Except.ok recs =>
        match auditLoop audit rest with
        | Except.error c =>
            Except.error ((id, { info with Processed := true }) :: c)
        | Except.ok (c, ids, d) =>
            Except.ok ((id, { info with Processed := true }) :: c,
                       id :: ids, recs ++ d)

/-- What the full-run branch of `main` does on each exit path. -/
structure RunOutcome where
  exitCode : Nat
  closeCalled : Bool
  finalCache : OrgCache
  exported : List AuditRecord
  deriving Repr

/-- The full-run branch of `main` (`ITGlueFolders.py` lines 182-221) after
discovery: run the audit loop; on a fatal error the handler saves the cache,
calls `resolver.close()` and exits with code 1; on normal completion the
code exports the data, prints the summary and returns — `resolver.close()`
appears nowhere on that path. -/
def mainFullRun (audit : String → Except String (List AuditRecord))
    (cache : OrgCache) : RunOutcome :=
  match auditLoop audit cache with
  | Except.error c =>
    { exitCode := 1, closeCalled := true, finalCache := c, exported := [] }
  | Except.ok (c, _, d) =>
    { exitCode := 0, closeCalled := false, finalCache := c, exported := d }

/-! ### Behaviour of the retry loop (`safe_get`) -/

/-- If, starting at request `i`, the next `k` responses are throttled and
the response after them is a success, and at least `k + 1` loop iterations
remain, the loop returns that success having counted `k` rate-limit hits
and slept the server-supplied durations (60 when `Retry-After` is absent).
Each throttled response does consume one iteration of
`for attempt in range(retry_limit)`. -/
theorem safeGetLoop_throttle_prefix (server : Nat → Response) :
    ∀ (k i n : Nat), k < n →
    (∀ j, j < k → (server (i + j)).status = 429) →
    (server (i + k)).status ≠ 429 → (server (i + k)).ok = true →
    safeGetLoop server i n =
      { result := Except.ok (server (i + k)), hits := k,
        sleeps := (List.range k).map (fun j => (server (i + j)).retryAfter.getD 60) } := by
  intro k
  induction k with
  | zero =>
    intro i n hn hthr hne hok
    cases n with
    | zero => omega
    | succ m =>
      simp only [Nat.add_zero] at hne hok
      simp [safeGetLoop, hne, hok]
  | succ k ih =>
    intro i n hn hthr hne hok
    cases n with
    | zero => omega
    | succ m =>
      have h429 : (server i).status = 429 := by
        have := hthr 0 (by omega)
        simpa using this
      have harith : ∀ j : Nat, i + 1 + j = i + (j + 1) := by omega
      have hrec := ih (i + 1) m (by omega)
        (by intro j hj; rw [harith j]; exact hthr (j + 1) (by omega))
        (by rw [harith k]; exact hne)
        (by rw [harith k]; exact hok)
      simp only [safeGetLoop, h429, if_pos, hrec]
      have hsl : List.map (fun j => (server (i + j)).retryAfter.getD 60) (List.range (k + 1))
          = (server i).retryAfter.getD 60 ::
            List.map (fun j => (server (i + 1 + j)).retryAfter.getD 60) (List.range k) := by
        rw [List.range_succ_eq_map, List.map_cons, List.map_map]
        simp only [List.cons.injEq, Nat.add_zero, true_and]
        apply List.map_congr_left
        intro j _
        simp only [Function.comp_apply, Nat.succ_eq_add_one]
        rw [harith j]
      rw [hsl, harith k]

/-- If every response available to the loop is throttled, the loop exhausts
its budget and raises the exhausted-retry error, having counted one
rate-limit hit per iteration. -/
theorem safeGetLoop_all_throttled (server : Nat → Response) :
    ∀ (n i : Nat), (∀ j, j < n → (server (i + j)).status = 429) →
    (safeGetLoop server i n).result = Except.error "Failed after retry_limit attempts" ∧
    (safeGetLoop server i n).hits = n := by
  intro n
  induction n with
  | zero => intro i _; exact ⟨rfl, rfl⟩
  | succ m ih =>
    intro i hthr
    have h429 : (server i).status = 429 := by
      have := hthr 0 (by omega)
      simpa using this
    have hrec := ih (i + 1)
      (by intro j hj
          have := hthr (j + 1) (by omega)
          have harith : i + (j + 1) = i + 1 + j := by omega
          rwa [harith] at this)
    simp only [safeGetLoop, h429, if_pos]
    exact ⟨hrec.1, by rw [hrec.2]⟩

/-- A server that answers the first three requests with 429 and the fourth
with 200: a response sequence consisting only of throttled responses
followed by a success. -/
def throttleThriceServer : Nat → Response := fun n =>
  if n < 3 then { status := 429, retryAfter := none }
  else { status := 200, retryAfter := none }

/-- C1, counterexample.  The claim says throttling responses never cause
the exhausted-retry fatal error and do not consume retry attempts, so any
sequence of throttled responses followed by a success ends in that success.
False: with the default budget of 3, on the sequence
[throttled, throttled, throttled, success] the `continue` in
`for attempt in range(retry_limit)` consumes all three attempts on the
throttled responses and `safe_get` raises the exhausted-retry error
without ever seeing the success. -/
theorem C1_counterexample_throttles_exhaust_budget :
    (∀ i, i < 3 → (throttleThriceServer i).status = 429) ∧
    (throttleThriceServer 3).ok = true ∧
    (safe_get throttleThriceServer 3).result =
      Except.error "Failed after retry_limit attempts" := by
  refine ⟨by decide, by decide, ?_⟩
  rfl

/-- C1, amended.  On a throttled (429) response `safe_get` waits the
server-supplied `Retry-After` duration (defaulting to 60 seconds if
absent) and retries, but the retry DOES consume an attempt from the
bounded budget: a response sequence of `k` throttled responses followed by
a success yields the success (with the rate-limit counter incremented `k`
times and the `k` server-supplied waits performed) only when `k` is below
the retry budget, and a budget's worth of throttled responses raises the
exhausted-retry fatal error with one counter increment per attempt. -/
theorem C1_amended_throttling_consumes_attempts :
    (∀ (server : Nat → Response) (k limit : Nat), k < limit →
      (∀ j, j < k → (server j).status = 429) →
      (server k).status ≠ 429 → (server k).ok = true →
      safe_get server limit =
        { result := Except.ok (server k), hits := k,
          sleeps := (List.range k).map (fun j => (server j).retryAfter.getD 60) })
    ∧ (∀ (server : Nat → Response) (limit : Nat),
      (∀ j, j < limit → (server j).status = 429) →
      (safe_get server limit).result = Except.error "Failed after retry_limit attempts" ∧
      (safe_get server limit).hits = limit) := by
  constructor
  · intro server k limit hk hthr hne hok
    have h := safeGetLoop_throttle_prefix server k 0 limit hk
      (by intro j hj; simpa using hthr j hj) (by simpa using hne) (by simpa using hok)
    simpa [safe_get] using h
  · intro server limit hthr
    exact safeGetLoop_all_throttled server limit 0 (by intro j hj; simpa using hthr j hj)

/-- A server whose first response is throttled (`Retry-After: 7`) and whose
later responses succeed. -/
def c1WitnessServer : Nat → Response := fun n =>
  if n = 0 then { status := 429, retryAfter := some 7 }
  else { status := 200, retryAfter := none }

/-- C1, witness: the amended theorem evaluated on a concrete one-throttle
server with budget 3, and on an all-throttled server with budget 2. -/
theorem C1_amended_witness :
    safe_get c1WitnessServer 3 =
      { result := Except.ok { status := 200, retryAfter := none },
        hits := 1, sleeps := [7] } ∧
    (safe_get (fun _ => { status := 429, retryAfter := none }) 2).result =
      Except.error "Failed after retry_limit attempts" := by
  constructor
  · have h := C1_amended_throttling_consumes_attempts.1 c1WitnessServer 1 3
      (by decide) (by decide) (by decide) (by decide)
    rw [h]; rfl
  · exact (C1_amended_throttling_consumes_attempts.2
      (fun _ => { status := 429, retryAfter := none }) 2 (by intro j _; rfl)).1

/-- A server that answers the first two requests with 429 and the third with
200: the response sequence [throttled, throttled, success]. -/
def throttleTwiceServer : Nat → Response := fun n =>
  if n < 2 then { status := 429, retryAfter := none }
  else { status := 200, retryAfter := none }

/-- C4.  With the default retry budget of 3 and the response sequence
[throttled, throttled, success], `safe_get` returns the success response
and the process-wide rate-limit counter is incremented exactly twice. -/
theorem C4_throttle_throttle_success :
    (throttleTwiceServer 0).status = 429 ∧
    (throttleTwiceServer 1).status = 429 ∧
    (throttleTwiceServer 2).ok = true ∧
    (safe_get throttleTwiceServer 3).result = Except.ok (throttleTwiceServer 2) ∧
    (safe_get throttleTwiceServer 3).hits = 2 := by
  exact ⟨rfl, rfl, rfl, rfl, rfl⟩

/-! ### Behaviour of `FolderResolver.resolve` -/

/-- C2.  If a prior `resolve` call has resolved a folder identifier —
either it was already cached, or the browser lookup succeeded — then a
second `resolve` call with the same identifier returns the same record and
the same cache, and drives no browser navigation at all (the third
component is `false`). -/
theorem C2_resolve_cached_idempotent :
    ∀ (browser : String → String → Option (List String)) (cache : FolderCache)
      (org fid : String),
      lookupKey fid cache ≠ none ∨ browser org fid ≠ none →
      FolderResolver.resolve browser
          (FolderResolver.resolve browser cache org fid).2.1 org fid
        = ((FolderResolver.resolve browser cache org fid).1,
           (FolderResolver.resolve browser cache org fid).2.1, false) := by
  intro browser cache org fid h
  rcases hl : lookupKey fid cache with _ | r
  · rcases hb : browser org fid with _ | bs
    · rcases h with h | h
      · exact absurd hl h
      · exact absurd hb h
    · simp [FolderResolver.resolve, hl, hb]
  · simp [FolderResolver.resolve, hl]

/-- A browser surface on which folder `F1` shows the breadcrumb trail
`Passwords / Invoices` and every other folder fails to load. -/
def invoicesBrowser : String → String → Option (List String) := fun _ f =>
  if f = "F1" then some ["Passwords", "Invoices"] else none

/-- C2, witness: resolving `F1` twice from an empty cache — the second call
returns the first call's record and cache and does not touch the
browser. -/
theorem C2_resolve_cached_idempotent_witness :
    FolderResolver.resolve invoicesBrowser
        (FolderResolver.resolve invoicesBrowser [] "1001" "F1").2.1 "1001" "F1"
      = ((FolderResolver.resolve invoicesBrowser [] "1001" "F1").1,
         (FolderResolver.resolve invoicesBrowser [] "1001" "F1").2.1, false) :=
  C2_resolve_cached_idempotent invoicesBrowser [] "1001" "F1" (Or.inr (by decide))

/-- C8.  On a resolution failure (any exception inside the `try` block:
timeout, missing page elements), `resolve` does not propagate the
exception: it returns the record with both `FolderName` and
`ParentFolderName` null, and leaves the cache unchanged.  (In the
embedding `resolve` is a total function: the `except` clause converts
every browser failure into this return value.) -/
theorem C8_resolve_failure_returns_null :
    ∀ (browser : String → String → Option (List String)) (cache : FolderCache)
      (org fid : String),
      lookupKey fid cache = none → browser org fid = none →
      FolderResolver.resolve browser cache org fid = (nullResolution, cache, true) := by
  intro browser cache org fid hl hb
  simp [FolderResolver.resolve, hl, hb]

/-- A browser surface on which every navigation fails. -/
def alwaysFailBrowser : String → String → Option (List String) := fun _ _ => none

/-- C8, witness: a failing lookup from an empty cache returns the null
record. -/
theorem C8_resolve_failure_returns_null_witness :
    FolderResolver.resolve alwaysFailBrowser [] "1001" "F9"
      = (nullResolution, [], true) :=
  C8_resolve_failure_returns_null alwaysFailBrowser [] "1001" "F9" rfl rfl

/-- C10.  The folder cache never contains the failure record: if no key of
the cache maps to the null record, the same holds after any `resolve` call
(a successful extraction always stores a record whose
`ParentFolderName` is non-null, and a failed one stores nothing); and
after a failed `resolve` the cache is unchanged, so a second call with the
same identifier drives the browser again instead of returning a cached
failure. -/
theorem C10_failure_never_cached :
    (∀ (browser : String → String → Option (List String)) (cache : FolderCache)
       (org fid : String),
       (∀ k, lookupKey k cache ≠ some nullResolution) →
       ∀ k, lookupKey k (FolderResolver.resolve browser cache org fid).2.1
              ≠ some nullResolution)
    ∧ (∀ (browser : String → String → Option (List String)) (cache : FolderCache)
       (org fid : String),
       lookupKey fid cache = none → browser org fid = none →
       (FolderResolver.resolve browser cache org fid).2.1 = cache ∧
       (FolderResolver.resolve browser
          (FolderResolver.resolve browser cache org fid).2.1 org fid).2.2 = true) := by
  constructor
  · intro browser cache org fid hinv k
    rcases hl : lookupKey fid cache with _ | r
    · rcases hb : browser org fid with _ | bs
      · simpa [FolderResolver.resolve, hl, hb] using hinv k
      · simp only [FolderResolver.resolve, hl, hb]
        rcases eq_or_ne fid k with hk | hk
        · subst hk
          simp [lookupKey, nullResolution, Resolution.mk.injEq]
        · simpa [lookupKey, hk] using hinv k
    · simpa [FolderResolver.resolve, hl] using hinv k
  · intro browser cache org fid hl hb
    constructor
    · simp [FolderResolver.resolve, hl, hb]
    · simp [FolderResolver.resolve, hl, hb]

/-- C10, witness: after a failed resolve of `F1` from an empty cache the
cache holds no null record and is unchanged, and a repeated call
navigates again. -/
theorem C10_failure_never_cached_witness :
    lookupKey "F1" (FolderResolver.resolve alwaysFailBrowser [] "1001" "F1").2.1
        ≠ some nullResolution ∧
    (FolderResolver.resolve alwaysFailBrowser [] "1001" "F1").2.1 = [] ∧
    (FolderResolver.resolve alwaysFailBrowser
       (FolderResolver.resolve alwaysFailBrowser [] "1001" "F1").2.1
       "1001" "F1").2.2 = true :=
  ⟨C10_failure_never_cached.1 alwaysFailBrowser [] "1001" "F1"
     (fun k => by simp) "F1",
   (C10_failure_never_cached.2 alwaysFailBrowser [] "1001" "F1" rfl rfl).1,
   (C10_failure_never_cached.2 alwaysFailBrowser [] "1001" "F1" rfl rfl).2⟩

/-! ### Behaviour of the password auditor (`process_org_passwords`) -/

/-- C6.  The loop body produces an audit record for a password if and only
if the password's folder id is present and non-empty (Python-truthy) and
the resolver returns a non-empty folder name for it; and every record in
the exported list of a run was produced by the loop body for one of the
run's passwords.  A password failing either condition is skipped, never
exported, and causes no error. -/
theorem C6_record_iff_folder_resolves :
    (∀ (browser : String → String → Option (List String))
       (ui_base org_id org_name : String) (cache : FolderCache)
       (pw : PasswordDetail),
       (processOnePassword browser ui_base org_id org_name cache pw).1.isSome = true ↔
         ∃ fid, folderIdOf pw = some fid ∧ fid ≠ "" ∧
           truthy (FolderResolver.resolve browser cache org_id fid).1.FolderName = true)
    ∧ (∀ (browser : String → String → Option (List String))
       (ui_base org_id org_name : String) (pws : List PasswordDetail)
       (cache : FolderCache) (r : AuditRecord),
       r ∈ (process_org_passwords browser ui_base org_id org_name pws cache).1 →
       ∃ pw ∈ pws, ∃ c,
         (processOnePassword browser ui_base org_id org_name c pw).1 = some r) := by
  constructor
  · intro browser ui_base org_id org_name cache pw
    rcases hfid : folderIdOf pw with _ | fid
    · simp [processOnePassword, hfid]
    · by_cases hne : fid = ""
      · subst hne
        simp [processOnePassword, hfid]
      · by_cases hname :
          truthy (FolderResolver.resolve browser cache org_id fid).1.FolderName
        · simp [processOnePassword, hfid, hne, hname]
        · simp [processOnePassword, hfid, hne, hname]
  · intro browser ui_base org_id org_name pws
    induction pws with
    | nil => intro cache r hr; simp [process_org_passwords] at hr
    | cons pw rest ih =>
      intro cache r hr
      simp only [process_org_passwords, List.mem_append] at hr
      rcases hr with hr | hr
      · rcases hstep : (processOnePassword browser ui_base org_id org_name cache pw).1
          with _ | rec
        · rw [hstep] at hr; simp at hr
        · rw [hstep] at hr
          simp only [Option.toList_some, List.mem_singleton] at hr
          subst hr
          exact ⟨pw, List.mem_cons_self pw rest, cache, hstep⟩
      · obtain ⟨pw', hmem, c, hc⟩ := ih _ r hr
        exact ⟨pw', List.mem_cons_of_mem pw hmem, c, hc⟩

/-- A password carrying both folder-reference shapes: the relationship
points at `F1`, the flat attribute at `F9`. -/
def pwBothShapes : PasswordDetail :=
  { pwId := "A", name := some "Server admin", username := some "root",
    relFolderId := some "F1", attrFolderId := some "F9" }

/-- The record the auditor exports for `pwBothShapes` on
`invoicesBrowser`. -/
def recBothShapes : AuditRecord :=
  { OrgID := "1001", OrgName := "Acme", PasswordID := "A",
    PasswordName := some "Server admin", Username := some "root",
    FolderID := "F1", FolderName := "Invoices",
    ParentFolderName := some "root",
    FolderURL := "https://x/1001/passwords/folder/F1" }

/-- C6, witness: on a one-password organization whose folder resolves to
`Invoices`, the loop body produces a record, and the one exported record
comes from that password's loop body. -/
theorem C6_record_iff_folder_resolves_witness :
    (processOnePassword invoicesBrowser "https://x" "1001" "Acme" [] pwBothShapes).1.isSome
        = true ∧
    ∃ pw ∈ [pwBothShapes], ∃ c,
      (processOnePassword invoicesBrowser "https://x" "1001" "Acme" c pw).1
        = some recBothShapes := by
  constructor
  · exact (C6_record_iff_folder_resolves.1 invoicesBrowser "https://x" "1001" "Acme"
      [] pwBothShapes).mpr ⟨"F1", rfl, by decide, by decide⟩
  · exact C6_record_iff_folder_resolves.2 invoicesBrowser "https://x" "1001" "Acme"
      [pwBothShapes] [] recBothShapes (by decide)

/-- C7.  The folder id the auditor uses is taken from the
relationship-shaped reference whenever that reference carries an id
(a non-null, non-empty string, i.e. Python-truthy), regardless of what the
flat attribute holds; the flat attribute is consulted when the
relationship-shaped reference is absent. -/
theorem C7_relationship_preferred :
    (∀ (pw : PasswordDetail) (rid : String),
       pw.relFolderId = some rid → rid ≠ "" → folderIdOf pw = some rid)
    ∧ (∀ pw : PasswordDetail,
       pw.relFolderId = none → folderIdOf pw = pw.attrFolderId) := by
  constructor
  · intro pw rid hrel hne
    simp [folderIdOf, pyOr, truthy, hrel, hne]
  · intro pw hrel
    simp [folderIdOf, pyOr, truthy, hrel]

/-- A password carrying only the flat-attribute folder reference. -/
def pwAttrOnly : PasswordDetail :=
  { pwId := "B", name := none, username := none,
    relFolderId := none, attrFolderId := some "F9" }

/-- C7, witness: with both shapes present the relationship id `F1` wins
over the attribute id `F9`; with the relationship absent the attribute id
is used. -/
theorem C7_relationship_preferred_witness :
    folderIdOf pwBothShapes = some "F1" ∧ folderIdOf pwAttrOnly = some "F9" := by
  constructor
  · exact C7_relationship_preferred.1 pwBothShapes "F1" rfl (by decide)
  · exact (C7_relationship_preferred.2 pwAttrOnly rfl).trans rfl

/-! ### Behaviour of organization discovery (`get_all_organizations`) -/

/-- A lookup that succeeds in a dict keeps succeeding, with the same value,
after appending further bindings. -/
theorem lookupKey_append_of_some {V : Type} (k : String) (v : V) :
    ∀ (l l' : List (String × V)), lookupKey k l = some v →
    lookupKey k (l ++ l') = some v := by
  intro l l' h
  induction l with
  | nil => simp at h
  | cons p rest ih =>
    obtain ⟨a, w⟩ := p
    by_cases hk : a = k
    · simp only [List.cons_append, lookupKey_cons, if_pos hk] at h ⊢
      exact h
    · simp only [List.cons_append, lookupKey_cons, if_neg hk] at h ⊢
      exact ih h

/-- A lookup that misses the first part of an appended dict falls through
to the second part. -/
theorem lookupKey_append_of_none {V : Type} (k : String) :
    ∀ (l l' : List (String × V)), lookupKey k l = none →
    lookupKey k (l ++ l') = lookupKey k l' := by
  intro l l' h
  induction l with
  | nil => simp
  | cons p rest ih =>
    obtain ⟨a, w⟩ := p
    by_cases hk : a = k
    · simp only [lookupKey_cons, if_pos hk] at h
      exact absurd h (by simp)
    · simp only [List.cons_append, lookupKey_cons, if_neg hk] at h ⊢
      exact ih h

/-- Merging one discovered organization never disturbs an existing cache
entry. -/
theorem addOrg_lookup_of_some (cache : OrgCache) (o : String × String)
    (k : String) (v : OrgInfo) (h : lookupKey k cache = some v) :
    lookupKey k (addOrg cache o) = some v := by
  unfold addOrg
  split
  · exact h
  · exact lookupKey_append_of_some k v cache _ h

/-- Discovery never disturbs an existing cache entry. -/
theorem get_all_lookup_of_some :
    ∀ (orgs : List (String × String)) (cache : OrgCache) (k : String) (v : OrgInfo),
    lookupKey k cache = some v →
    lookupKey k (get_all_organizations cache orgs) = some v := by
  intro orgs
  induction orgs with
  | nil => intro cache k v h; exact h
  | cons o rest ih =>
    intro cache k v h
    exact ih (addOrg cache o) k v (addOrg_lookup_of_some cache o k v h)

/-- After merging an organization it is present in the cache. -/
theorem addOrg_self_present (cache : OrgCache) (o : String × String) :
    (lookupKey o.1 (addOrg cache o)).isSome = true := by
  unfold addOrg
  split
  · assumption
  · rename_i h
    rw [lookupKey_append_of_none o.1 cache _ (by
      rcases hl : lookupKey o.1 cache with _ | w
      · rfl
      · exact absurd (by rw [hl]; rfl) h)]
    simp [lookupKey]

/-- After discovery every discovered organization is present in the
cache. -/
theorem get_all_present :
    ∀ (orgs : List (String × String)) (cache : OrgCache) (o : String × String),
    o ∈ orgs → (lookupKey o.1 (get_all_organizations cache orgs)).isSome = true := by
  intro orgs
  induction orgs with
  | nil => intro cache o h; simp at h
  | cons p rest ih =>
    intro cache o h
    rcases List.mem_cons.mp h with h | h
    · subst h
      rcases hl : lookupKey o.1 (addOrg cache o) with _ | v
      · have := addOrg_self_present cache o
        rw [hl] at this
        simp at this
      · have := get_all_lookup_of_some rest (addOrg cache o) o.1 v hl
        unfold get_all_organizations
        simp only [List.foldl_cons]
        rw [show List.foldl addOrg (addOrg cache o) rest
              = get_all_organizations (addOrg cache o) rest from rfl, this]
        rfl
    · exact ih (addOrg cache p) o h

/-- Discovery over organizations that are all already cached changes
nothing. -/
theorem get_all_noop :
    ∀ (orgs : List (String × String)) (cache : OrgCache),
    (∀ o ∈ orgs, (lookupKey o.1 cache).isSome = true) →
    get_all_organizations cache orgs = cache := by
  intro orgs
  induction orgs with
  | nil => intro cache _; rfl
  | cons o rest ih =>
    intro cache h
    have ho : addOrg cache o = cache := by
      unfold addOrg
      rw [if_pos (h o (List.mem_cons_self o rest))]
    unfold get_all_organizations
    simp only [List.foldl_cons, ho]
    exact ih cache (fun p hp => h p (List.mem_cons_of_mem o hp))

/-- C9.  Discovery merges newly found organizations into the loaded cache
without overwriting any existing entry: every id already present keeps its
exact entry (name and processed flag, in particular `processed=true`
entries), and running discovery twice over the same listing yields the
same cache as running it once. -/
theorem C9_discovery_merge_idempotent :
    (∀ (cache : OrgCache) (orgs : List (String × String)) (id : String)
       (info : OrgInfo),
       lookupKey id cache = some info →
       lookupKey id (get_all_organizations cache orgs) = some info)
    ∧ (∀ (cache : OrgCache) (orgs : List (String × String)),
       get_all_organizations (get_all_organizations cache orgs) orgs
         = get_all_organizations cache orgs) := by
  constructor
  · intro cache orgs id info h
    exact get_all_lookup_of_some orgs cache id info h
  · intro cache orgs
    exact get_all_noop orgs (get_all_organizations cache orgs)
      (fun o ho => get_all_present orgs cache o ho)

/-- A persisted cache in which organization `1` is already processed. -/
def seedOrgCache : OrgCache := [("1", { OrgName := "Acme", Processed := true })]

/-- A discovery listing that re-reports organization `1` under a new name
and finds a new organization `2`. -/
def discoveredOrgs : List (String × String) := [("1", "Acme renamed"), ("2", "Beta")]

/-- C9, witness: discovery keeps the processed entry for `1` byte-for-byte
(the re-reported name does not overwrite it) and a second discovery run is
a no-op. -/
theorem C9_discovery_merge_idempotent_witness :
    lookupKey "1" (get_all_organizations seedOrgCache discoveredOrgs)
      = some { OrgName := "Acme", Processed := true } ∧
    get_all_organizations (get_all_organizations seedOrgCache discoveredOrgs)
        discoveredOrgs
      = get_all_organizations seedOrgCache discoveredOrgs :=
  ⟨C9_discovery_merge_idempotent.1 seedOrgCache discoveredOrgs "1"
     { OrgName := "Acme", Processed := true } rfl,
   C9_discovery_merge_idempotent.2 seedOrgCache discoveredOrgs⟩

/-! ### Behaviour of the full-run orchestrator (`main`) -/

/-- C5.  If auditing succeeds on every not-yet-processed organization, the
full-run loop completes successfully; it audits exactly the organizations
not marked processed (in cache order — entries already marked processed
are skipped without any audit fetch), on completion every one of the N
cache entries is marked processed, and the number audited is N − K where K
is the number of entries that were already marked processed. -/
theorem C5_resume_audits_unprocessed :
    ∀ (audit : String → Except String (List AuditRecord)) (cache : OrgCache),
    (∀ p ∈ cache, p.2.Processed = false → ∃ recs, audit p.1 = Except.ok recs) →
    ∃ c ids d, auditLoop audit cache = Except.ok (c, ids, d) ∧
      ids = (cache.filter (fun p => !p.2.Processed)).map Prod.fst ∧
      (∀ p ∈ c, p.2.Processed = true) ∧
      c.length = cache.length ∧
      ids.length + (cache.filter (fun p => p.2.Processed)).length = cache.length := by
  intro audit cache
  induction cache with
  | nil =>
    intro _
    exact ⟨[], [], [], rfl, by simp, by simp, rfl, by simp⟩
  | cons p rest ih =>
    intro h
    obtain ⟨id, info⟩ := p
    obtain ⟨c, ids, d, heq, hids, hall, hlen, hcount⟩ :=
      ih (fun q hq => h q (List.mem_cons_of_mem _ hq))
    rcases hp : info.Processed with _ | _
    · -- info.Processed = false: the organization is audited
      obtain ⟨recs, hrecs⟩ := h (id, info) (List.mem_cons_self _ _) hp
      refine ⟨(id, { info with Processed := true }) :: c, id :: ids, recs ++ d,
        ?_, ?_, ?_, ?_, ?_⟩
      · simp only [auditLoop, hp, Bool.false_eq_true, if_neg, hrecs, heq]
        rfl
      · simp [List.filter_cons, hp, hids]
      · intro q hq
        rcases List.mem_cons.mp hq with hq | hq
        · subst hq; rfl
        · exact hall q hq
      · simp [hlen]
      · have hf : List.filter (fun p => p.2.Processed) ((id, info) :: rest)
            = List.filter (fun p => p.2.Processed) rest := by
          simp [List.filter_cons, hp]
        rw [hf, List.length_cons, List.length_cons]
        omega
    · -- info.Processed = true: skipped
      refine ⟨(id, info) :: c, ids, d, ?_, ?_, ?_, ?_, ?_⟩
      · simp only [auditLoop, hp, if_pos, heq]
      · simp [List.filter_cons, hp, hids]
      · intro q hq
        rcases List.mem_cons.mp hq with hq | hq
        · subst hq; exact hp
        · exact hall q hq
      · simp [hlen]
      · have hf : List.filter (fun p => p.2.Processed) ((id, info) :: rest)
            = (id, info) :: List.filter (fun p => p.2.Processed) rest := by
          simp [List.filter_cons, hp]
        rw [hf, List.length_cons, List.length_cons]
        omega

/-- An audit function that succeeds on every organization with no
records. -/
def emptyAudit : String → Except String (List AuditRecord) := fun _ => Except.ok []

/-- A two-organization cache in which `1` is already processed and `2` is
not. -/
def resumeCache : OrgCache :=
  [("1", { OrgName := "Acme", Processed := true }),
   ("2", { OrgName := "Beta", Processed := false })]

/-- C5, witness: resuming over `resumeCache` audits exactly organization
`2` and finishes with both entries processed (N = 2, K = 1, N − K = 1). -/
theorem C5_resume_audits_unprocessed_witness :
    ∃ c ids d, auditLoop emptyAudit resumeCache = Except.ok (c, ids, d) ∧
      ids = (resumeCache.filter (fun p => !p.2.Processed)).map Prod.fst ∧
      (∀ p ∈ c, p.2.Processed = true) ∧
      c.length = resumeCache.length ∧
      ids.length + (resumeCache.filter (fun p => p.2.Processed)).length
        = resumeCache.length :=
  C5_resume_audits_unprocessed emptyAudit resumeCache
    (fun _ _ _ => ⟨[], rfl⟩)

/-- An audit function that raises on every organization. -/
def failingAudit : String → Except String (List AuditRecord) :=
  fun _ => Except.error "boom"

/-- A one-organization cache with an unprocessed entry. -/
def oneOrgCache : OrgCache := [("1", { OrgName := "Acme", Processed := false })]

/-- C3, evaluated at the failing input.  The claim says `resolver.close()`
is invoked on every exit path of a run; in the code it is invoked only in
the per-organization `except` handler.  On a full run that completes
normally (here: one organization, audited successfully) `main` exports,
prints the summary and returns with `resolver.close()` never called — the
browser is not quit and the folder cache is not flushed — while the
error-triggered exit does call it. -/
theorem C3_close_skipped_on_normal_completion :
    (mainFullRun emptyAudit oneOrgCache).exitCode = 0 ∧
    (mainFullRun emptyAudit oneOrgCache).closeCalled = false ∧
    (mainFullRun failingAudit oneOrgCache).exitCode = 1 ∧
    (mainFullRun failingAudit oneOrgCache).closeCalled = true :=
  ⟨rfl, rfl, rfl, rfl⟩
